import Mathlib

/-!
# Verification of `ensure_git_symlinks` (src/src/mdm/ensure_git_symlinks.rs)

The routine under verification:

* resolves the current executable path and its two ancestor directories
  (`binary_dir`, `base_dir`), failing with descriptive `Generic` errors when a
  parent is missing;
* runs `git --exec-path`, decodes its stdout as UTF-8 and trims it;
* takes the parent of the resulting path (`libexec_target`), failing with a
  descriptive error when there is none;
* removes any entry present at `base_dir/libexec` (presence is detected by
  `exists() || symlink_metadata().is_ok()`, the removal is `remove_file`);
* creates a symlink `base_dir/libexec -> libexec_target`.

The embedding below models paths as an absolute-flag plus a component list
(the semantics of Rust `Path::parent` / `Path::join` on such paths), the
filesystem as an association list from paths to entries (file, directory or
symlink), and the environment-provided inputs (`std::env::current_exe`,
`exec_git` stdout, OS-level symlink-creation failure) as explicit arguments.
The function threads the filesystem state explicitly and returns it alongside
the `Result`, so that error cases expose the filesystem they leave behind.
-/

namespace GitAi

/-- A filesystem path: whether it is absolute, and its list of components.
Models Rust `PathBuf` for the plain paths this code handles. -/
structure Path where
  absolute : Bool
  components : List String
deriving DecidableEq, Repr

/-- Rust `Path::parent`: drop the last component; `None` for a root or empty
path (no components). -/
def Path.parent : Path → Option Path
  | ⟨_, []⟩ => none
  | ⟨a, c :: cs⟩ => some ⟨a, (c :: cs).dropLast⟩

/-- Rust `Path::join` with a plain relative file name: append one component. -/
def Path.join (p : Path) (name : String) : Path :=
  ⟨p.absolute, p.components ++ [name]⟩

/-- Split a character list at every `/` (the groups between separators,
empty groups included — the analogue of `String.splitOn "/"`). -/
def splitOnSlash : List Char → List (List Char)
  | [] => [[]]
  | c :: cs =>
    if c = '/' then [] :: splitOnSlash cs
    else
      match splitOnSlash cs with
      | [] => [[c]]
      | g :: gs => (c :: g) :: gs

/-- Parse a path string the way `PathBuf::from` reads the plain paths this
code handles: a leading `/` makes it absolute, the components are the
nonempty `/`-separated pieces. -/
def parsePath (s : String) : Path :=
  ⟨(match s.data with
    | c :: _ => c = '/'
    | [] => false),
   ((splitOnSlash s.data).filter (fun g => decide (g ≠ []))).map String.mk⟩

/-- A directory entry: regular file, directory, or symbolic link with its
stored target path. -/
inductive Entry where
  | file
  | dir
  | symlink (target : Path)
deriving DecidableEq, Repr

/-- The filesystem: an association list from paths to entries (first match
wins on lookup). -/
abbrev FS := List (Path × Entry)

/-- Look up the entry stored at a path. -/
def lookupFS : FS → Path → Option Entry
  | [], _ => none
  | (q, e) :: rest, p => if q = p then some e else lookupFS rest p

/-- Remove the (first) entry stored at a path. -/
def eraseFS : FS → Path → FS
  | [], _ => []
  | (q, e) :: rest, p => if q = p then rest else (q, e) :: eraseFS rest p

/-- Rust `path.symlink_metadata().is_ok()`: true iff some entry — including a
dangling symlink — is present at the path itself. -/
def symlink_metadata_ok (fs : FS) (p : Path) : Bool :=
  (lookupFS fs p).isSome

/-- Symlink-following existence check with a fuel bound on the length of the
symlink chain (the OS fails with `ELOOP` past its limit, which makes
`exists()` report `false`). A missing entry or an exhausted chain is `false`;
a file or directory is `true`; a symlink defers to its target. -/
def resolveExists (fs : FS) (fuel : Nat) (p : Path) : Bool :=
  match lookupFS fs p with
  | none => false
  | some Entry.file => true
  | some Entry.dir => true
  | some (Entry.symlink t) =>
    match fuel with
    | 0 => false
    | f + 1 => resolveExists fs f t

/-- Rust `path.exists()`: follows symlinks (chain bounded by the OS limit of
40, `SYMLOOP_MAX` on Linux); a dangling symlink reports `false`. -/
def path_exists (fs : FS) (p : Path) : Bool :=
  resolveExists fs 40 p

/-- The error type of the routine, by cause: `generic` carries the message of
`GitAiError::Generic`, `utf8` is the `String::from_utf8` failure, `ioErr` is
an I/O error from a filesystem call or the injected environment. -/
inductive IoErrorKind where
  | notFound
  | isADirectory
  | alreadyExists
  | permissionDenied
deriving DecidableEq, Repr

inductive GitAiError where
  | generic (msg : String)
  | utf8
  | ioErr (kind : IoErrorKind)
deriving DecidableEq, Repr

/-- Rust `std::fs::remove_file`: fails on a missing entry or on a directory;
removes a regular file or a symlink itself (not its target). -/
def remove_file (fs : FS) (p : Path) : Except GitAiError FS :=
  match lookupFS fs p with
  | none => .error (.ioErr .notFound)
  | some Entry.dir => .error (.ioErr .isADirectory)
  | some Entry.file => .ok (eraseFS fs p)
  | some (Entry.symlink _) => .ok (eraseFS fs p)

/-- Rust `std::os::unix::fs::symlink target link`: fails when the OS rejects
the call (`osFail`, e.g. permissions — injected by the environment) or when an
entry already exists at the link path; otherwise records the new symlink. -/
def create_symlink (fs : FS) (target link : Path) (osFail : Bool) :
    Except GitAiError FS :=
  if osFail then .error (.ioErr .permissionDenied)
  else
    match lookupFS fs link with
    | some _ => .error (.ioErr .alreadyExists)
    | none => .ok ((link, Entry.symlink target) :: fs)

/-- Unicode `White_Space`, the set Rust `char::is_whitespace` tests. -/
def rustIsWhitespace (c : Char) : Bool :=
  (0x09 ≤ c.toNat && c.toNat ≤ 0x0D) || c.toNat = 0x20 || c.toNat = 0x85 ||
  c.toNat = 0xA0 || c.toNat = 0x1680 ||
  (0x2000 ≤ c.toNat && c.toNat ≤ 0x200A) ||
  c.toNat = 0x2028 || c.toNat = 0x2029 || c.toNat = 0x202F ||
  c.toNat = 0x205F || c.toNat = 0x3000

/-- Rust `str::trim`: strip leading and trailing whitespace characters. -/
def rustTrim (s : String) : String :=
  String.mk (((s.data.dropWhile rustIsWhitespace).reverse.dropWhile
    rustIsWhitespace).reverse)

/-- Rust `String::from_utf8` on a byte sequence: strict UTF-8 decoding, which
rejects stray continuation bytes, overlong encodings, surrogate code points
and code points above `0x10FFFF`. -/
def utf8Decode : List Nat → Option (List Char)
  | [] => some []
  | b :: bs =>
    if b < 0x80 then
      match utf8Decode bs with
      | some cs => some (Char.ofNat b :: cs)
      | none => none
    else if b < 0xC2 then
      -- continuation byte as lead, or overlong two-byte lead (0xC0, 0xC1)
      none
    else if b < 0xE0 then
      match bs with
      | b1 :: bs' =>
        if 0x80 ≤ b1 && b1 < 0xC0 then
          match utf8Decode bs' with
          | some cs => some (Char.ofNat ((b - 0xC0) * 0x40 + (b1 - 0x80)) :: cs)
          | none => none
        else none
      | [] => none
    else if b < 0xF0 then
      match bs with
      | b1 :: b2 :: bs' =>
        if 0x80 ≤ b1 && b1 < 0xC0 && 0x80 ≤ b2 && b2 < 0xC0 then
          let c := (b - 0xE0) * 0x1000 + (b1 - 0x80) * 0x40 + (b2 - 0x80)
          if 0x800 ≤ c && (c < 0xD800 || 0xE000 ≤ c) then
            match utf8Decode bs' with
            | some cs => some (Char.ofNat c :: cs)
            | none => none
          else none
        else none
      | _ => none
    else if b < 0xF5 then
      match bs with
      | b1 :: b2 :: b3 :: bs' =>
        if 0x80 ≤ b1 && b1 < 0xC0 && 0x80 ≤ b2 && b2 < 0xC0 &&
           0x80 ≤ b3 && b3 < 0xC0 then
          let c := (b - 0xF0) * 0x40000 + (b1 - 0x80) * 0x1000 +
            (b2 - 0x80) * 0x40 + (b3 - 0x80)
          if 0x10000 ≤ c && c < 0x110000 then
            match utf8Decode bs' with
            | some cs => some (Char.ofNat c :: cs)
            | none => none
          else none
        else none
      | _ => none
    else none

/-- The UTF-8 bytes of an ASCII string (used to build concrete stdout values
in the theorems below; for ASCII the encoding is the identity on code). -/
def asciiBytes (s : String) : List Nat :=
  s.data.map Char.toNat

/-- Shallow embedding of `ensure_git_symlinks` (ensure_git_symlinks.rs:7-44).

Environment inputs made explicit:
* `exePath` — the result of `std::env::current_exe()` (assumed to succeed;
  no claim concerns its failure);
* `gitResult` — the result of `exec_git(["--exec-path"])`, its stdout bytes
  on success;
* `osFail` — whether the OS rejects the final symlink-creation call for an
  external reason (e.g. permissions);
* `fs` — the filesystem state, threaded through and returned together with
  the `Result` (unchanged on pre-mutation errors).

The `#[cfg(unix)]` branch is modelled; on Windows `symlink_dir` plays the
same role for the directory target and the claims do not distinguish them. -/
def ensure_git_symlinks (exePath : Path)
    (gitResult : Except GitAiError (List Nat)) (osFail : Bool) (fs : FS) :
    Except GitAiError Unit × FS :=
  match exePath.parent with
  | none => (.error (.generic "Cannot get binary directory"), fs)
  | some binary_dir =>
    match binary_dir.parent with
    | none => (.error (.generic "Cannot get base directory"), fs)
    | some base_dir =>
      match gitResult with
      | .error e => (.error e, fs)
      | .ok stdout =>
        match utf8Decode stdout with
        | none => (.error .utf8, fs)
        | some chars =>
          -- exec_path := parsePath (rustTrim (String.mk chars)),
          -- symlink_path := base_dir.join "libexec" (inlined below)
          match (parsePath (rustTrim (String.mk chars))).parent with
          | none =>
            (.error (.generic "Cannot get libexec directory from exec-path"),
              fs)
          | some libexec_target =>
            match
              (if path_exists fs (base_dir.join "libexec") ||
                  symlink_metadata_ok fs (base_dir.join "libexec") then
                remove_file fs (base_dir.join "libexec")
              else .ok fs) with
            | .error e => (.error e, fs)
            | .ok fs1 =>
              match
                create_symlink fs1 libexec_target (base_dir.join "libexec")
                  osFail with
              | .error e => (.error e, fs1)
              | .ok fs2 => (.ok (), fs2)

/-- `BaseDirectory` as derived by the routine: grandparent of the executable
path. -/
def baseDirOf (exePath : Path) : Option Path :=
  exePath.parent.bind Path.parent

/-- `SymlinkPath`: `BaseDirectory` joined with the fixed name `libexec`. -/
def symlinkPathOf (exePath : Path) : Option Path :=
  (baseDirOf exePath).map (Path.join · "libexec")

/-- `LibexecTarget` as derived by the routine from the git invocation: parent
of the parsed, trimmed, UTF-8-decoded stdout. -/
def libexecTargetOf (gitResult : Except GitAiError (List Nat)) : Option Path :=
  match gitResult with
  | .error _ => none
  | .ok stdout =>
    (utf8Decode stdout).bind fun chars =>
      (parsePath (rustTrim (String.mk chars))).parent

/-- Well-formed filesystem: each path holds at most one entry (true of a real
filesystem; the association-list representation does not enforce it). -/
def wfFS (fs : FS) : Prop :=
  (fs.map Prod.fst).Nodup

instance (fs : FS) : Decidable (wfFS fs) :=
  inferInstanceAs (Decidable (List.Nodup _))

/-! ## Helper lemmas -/

theorem lookupFS_eq_none_of_not_mem_keys {fs : FS} {p : Path}
    (h : p ∉ fs.map Prod.fst) : lookupFS fs p = none := by
  induction fs with
  | nil => rfl
  | cons qe rest ih =>
    obtain ⟨q, e⟩ := qe
    simp only [List.map_cons, List.mem_cons] at h
    push_neg at h
    have hq : q ≠ p := fun hq => h.1 hq.symm
    simp only [lookupFS, if_neg hq]
    exact ih h.2

theorem lookupFS_eraseFS_self {fs : FS} (p : Path) (h : wfFS fs) :
    lookupFS (eraseFS fs p) p = none := by
  induction fs with
  | nil => rfl
  | cons qe rest ih =>
    obtain ⟨q, e⟩ := qe
    simp only [wfFS, List.map_cons, List.nodup_cons] at h
    by_cases hq : q = p
    · subst hq
      simp only [eraseFS, if_pos rfl]
      exact lookupFS_eq_none_of_not_mem_keys h.1
    · have h1 : eraseFS ((q, e) :: rest) p = (q, e) :: eraseFS rest p := by
        simp [eraseFS, hq]
      have h2 : lookupFS ((q, e) :: eraseFS rest p) p =
          lookupFS (eraseFS rest p) p := by
        simp [lookupFS, hq]
      rw [h1, h2]
      exact ih h.2

theorem path_exists_of_lookup_none {fs : FS} {p : Path}
    (h : lookupFS fs p = none) : path_exists fs p = false := by
  unfold path_exists resolveExists
  rw [h]

theorem remove_file_ok {fs fs' : FS} {p : Path}
    (h : remove_file fs p = .ok fs') : fs' = eraseFS fs p := by
  unfold remove_file at h
  split at h <;> simp_all

theorem create_symlink_ok {fs fs' : FS} {t l : Path} {osFail : Bool}
    (h : create_symlink fs t l osFail = .ok fs') :
    osFail = false ∧ lookupFS fs l = none ∧ fs' = (l, Entry.symlink t) :: fs := by
  unfold create_symlink at h
  split at h
  · simp at h
  · split at h <;> simp_all

/-- Inversion of a successful run: every derivation step succeeded, the OS
accepted the symlink call, and the final filesystem is the pre-creation
filesystem `fs1` (the input, or the input minus the removed entry) with the
new symlink on top. -/
theorem ensure_ok_inv {exe : Path} {git : Except GitAiError (List Nat)}
    {osFail : Bool} {fs fs' : FS}
    (h : ensure_git_symlinks exe git osFail fs = (.ok (), fs')) :
    ∃ bin base bytes chars target fs1,
      exe.parent = some bin ∧ bin.parent = some base ∧
      git = .ok bytes ∧ utf8Decode bytes = some chars ∧
      (parsePath (rustTrim (String.mk chars))).parent = some target ∧
      osFail = false ∧ lookupFS fs1 (base.join "libexec") = none ∧
      fs' = (base.join "libexec", Entry.symlink target) :: fs1 ∧
      (fs1 = fs ∨ fs1 = eraseFS fs (base.join "libexec")) := by
  unfold ensure_git_symlinks at h
  split at h
  · simp at h
  next bin hbin =>
    split at h
    · simp at h
    next base hbase =>
      split at h
      · simp at h
      next stdout =>
        split at h
        · simp at h
        next chars hdec =>
          split at h
          · simp at h
          next target hpar =>
            split at h
            · simp at h
            next fs1 hrm =>
              split at h
              · simp at h
              next fs2 hcr =>
                obtain ⟨hof, hlk, hfs2⟩ := create_symlink_ok hcr
                simp only [Prod.mk.injEq] at h
                refine ⟨bin, base, stdout, chars, target, fs1, hbin, hbase,
                  rfl, hdec, hpar, hof, hlk, ?_, ?_⟩
                · rw [← h.2, hfs2]
                · by_cases hc :
                    (path_exists fs (base.join "libexec") ||
                      symlink_metadata_ok fs (base.join "libexec")) = true
                  · rw [if_pos hc] at hrm
                    exact Or.inr (remove_file_ok hrm)
                  · rw [if_neg hc] at hrm
                    simp at hrm
                    exact Or.inl hrm.symm

/-! ## Claims -/

/-- C1: after `ensure_git_symlinks` returns `Ok(())`, the path
`BaseDirectory/"libexec"` (SymlinkPath) holds a symbolic-link entry — by the
`Entry` equality, not a regular file or a directory — whose stored target is
`LibexecTarget`, the parent of the path reported by the external git
command. -/
theorem ensure_symlink_state_after_ok (exe : Path)
    (git : Except GitAiError (List Nat)) (osFail : Bool) (fs fs' : FS)
    (h : ensure_git_symlinks exe git osFail fs = (.ok (), fs')) :
    ∃ sp target, symlinkPathOf exe = some sp ∧
      libexecTargetOf git = some target ∧
      lookupFS fs' sp = some (Entry.symlink target) := by
  obtain ⟨bin, base, bytes, chars, target, fs1, hbin, hbase, hgit, hdec, hpar,
    _, _, hfs', _⟩ := ensure_ok_inv h
  refine ⟨base.join "libexec", target, ?_, ?_, ?_⟩
  · simp [symlinkPathOf, baseDirOf, hbin, hbase]
  · simp [libexecTargetOf, hgit, hdec, hpar]
  · simp [hfs', lookupFS]

theorem ensure_symlink_state_after_ok_witness :
    ∃ sp target, symlinkPathOf (parsePath "/opt/tool/bin/app") = some sp ∧
      libexecTargetOf (.ok (asciiBytes "/usr/libexec/git-core")) =
        some target ∧
      lookupFS [(Path.mk true ["opt", "tool", "libexec"],
        Entry.symlink (Path.mk true ["usr", "libexec"]))] sp =
        some (Entry.symlink target) :=
  ensure_symlink_state_after_ok (parsePath "/opt/tool/bin/app")
    (.ok (asciiBytes "/usr/libexec/git-core")) false [] _ rfl

/-- C2: the end-to-end scenario. With the executable at `/opt/tool/bin/app`
and the external command reporting `/usr/libexec/git-core`, the routine
computes BinaryDirectory = `/opt/tool/bin`, BaseDirectory = `/opt/tool`,
LibexecTarget = `/usr/libexec`, and on an empty filesystem succeeds leaving
exactly a symlink at `/opt/tool/libexec` pointing to `/usr/libexec`. -/
theorem ensure_end_to_end_scenario :
    (parsePath "/opt/tool/bin/app").parent = some (parsePath "/opt/tool/bin") ∧
    baseDirOf (parsePath "/opt/tool/bin/app") = some (parsePath "/opt/tool") ∧
    libexecTargetOf (.ok (asciiBytes "/usr/libexec/git-core")) =
      some (parsePath "/usr/libexec") ∧
    symlinkPathOf (parsePath "/opt/tool/bin/app") =
      some (parsePath "/opt/tool/libexec") ∧
    ensure_git_symlinks (parsePath "/opt/tool/bin/app")
      (.ok (asciiBytes "/usr/libexec/git-core")) false [] =
      (.ok (), [(parsePath "/opt/tool/libexec",
        Entry.symlink (parsePath "/usr/libexec"))]) :=
  ⟨rfl, rfl, rfl, rfl, rfl⟩

/-- C3: idempotence. If a run on filesystem `fs` succeeds producing `fs₁`,
then a second run with the same executable path and git output (no external
state changes) succeeds and produces the very same filesystem `fs₁`; the
second run goes through the removal branch (the link is detected as present
via symlink metadata) and recreates the link. -/
theorem ensure_idempotent (exe : Path) (git : Except GitAiError (List Nat))
    (osFail : Bool) (fs fs₁ : FS)
    (h : ensure_git_symlinks exe git osFail fs = (.ok (), fs₁)) :
    (∃ sp, symlinkPathOf exe = some sp ∧ symlink_metadata_ok fs₁ sp = true) ∧
    ensure_git_symlinks exe git osFail fs₁ = (.ok (), fs₁) := by
  obtain ⟨bin, base, bytes, chars, target, fs1, hbin, hbase, hgit, hdec, hpar,
    hof, hlk, hfs₁, _⟩ := ensure_ok_inv h
  subst hgit hof hfs₁
  constructor
  · exact ⟨base.join "libexec",
      by simp [symlinkPathOf, baseDirOf, hbin, hbase],
      by simp [symlink_metadata_ok, lookupFS]⟩
  · simp [ensure_git_symlinks, hbin, hbase, hdec, hpar, symlink_metadata_ok,
      lookupFS, remove_file, eraseFS, create_symlink, hlk]

theorem ensure_idempotent_witness :
    (∃ sp, symlinkPathOf (parsePath "/opt/tool/bin/app") = some sp ∧
      symlink_metadata_ok [(Path.mk true ["opt", "tool", "libexec"],
        Entry.symlink (Path.mk true ["usr", "libexec"]))] sp = true) ∧
    ensure_git_symlinks (parsePath "/opt/tool/bin/app")
      (.ok (asciiBytes "/usr/libexec/git-core")) false
      [(Path.mk true ["opt", "tool", "libexec"],
        Entry.symlink (Path.mk true ["usr", "libexec"]))] =
      (.ok (), [(Path.mk true ["opt", "tool", "libexec"],
        Entry.symlink (Path.mk true ["usr", "libexec"]))]) :=
  ensure_idempotent (parsePath "/opt/tool/bin/app")
    (.ok (asciiBytes "/usr/libexec/git-core")) false [] _ rfl

/-- C4: the pre-removal check treats SymlinkPath as present exactly when
`exists()` or `symlink_metadata().is_ok()` succeeds. If no entry is at
SymlinkPath (both checks fail), no removal is made and the new link is
created directly on top of the untouched filesystem; if a dangling symlink is
there (`exists()` fails on the missing target, symlink metadata succeeds), it
is removed before the new link is created. -/
theorem ensure_presence_check (exe : Path) (git : Except GitAiError (List Nat))
    (fs : FS) (bin base target : Path) (bytes : List Nat) (chars : List Char)
    (hnd : wfFS fs)
    (hbin : exe.parent = some bin) (hbase : bin.parent = some base)
    (hgit : git = .ok bytes) (hdec : utf8Decode bytes = some chars)
    (hpar : (parsePath (rustTrim (String.mk chars))).parent = some target) :
    (lookupFS fs (base.join "libexec") = none →
      ensure_git_symlinks exe git false fs =
        (.ok (), (base.join "libexec", Entry.symlink target) :: fs)) ∧
    (∀ q, lookupFS fs (base.join "libexec") = some (Entry.symlink q) →
      lookupFS fs q = none →
      ensure_git_symlinks exe git false fs =
        (.ok (), (base.join "libexec", Entry.symlink target) ::
          eraseFS fs (base.join "libexec"))) := by
  subst hgit
  constructor
  · intro habs
    simp [ensure_git_symlinks, hbin, hbase, hdec, hpar, symlink_metadata_ok,
      habs, path_exists_of_lookup_none habs, create_symlink]
  · intro q hsym hq
    have hrm : remove_file fs (base.join "libexec") =
        .ok (eraseFS fs (base.join "libexec")) := by
      simp [remove_file, hsym]
    simp [ensure_git_symlinks, hbin, hbase, hdec, hpar, symlink_metadata_ok,
      hsym, hrm, create_symlink, lookupFS_eraseFS_self _ hnd]

theorem ensure_presence_check_witness :
    ensure_git_symlinks (parsePath "/opt/tool/bin/app")
      (.ok (asciiBytes "/usr/libexec/git-core")) false [] =
      (.ok (), [(Path.mk true ["opt", "tool", "libexec"],
        Entry.symlink (Path.mk true ["usr", "libexec"]))]) ∧
    ensure_git_symlinks (parsePath "/opt/tool/bin/app")
      (.ok (asciiBytes "/usr/libexec/git-core")) false
      [(Path.mk true ["opt", "tool", "libexec"],
        Entry.symlink (Path.mk true ["old", "gone"]))] =
      (.ok (), [(Path.mk true ["opt", "tool", "libexec"],
        Entry.symlink (Path.mk true ["usr", "libexec"]))]) :=
  ⟨(ensure_presence_check (parsePath "/opt/tool/bin/app")
      (.ok (asciiBytes "/usr/libexec/git-core")) []
      (parsePath "/opt/tool/bin") (parsePath "/opt/tool")
      (parsePath "/usr/libexec") (asciiBytes "/usr/libexec/git-core")
      ("/usr/libexec/git-core".data) (by decide) rfl rfl rfl rfl rfl).1 rfl,
   (ensure_presence_check (parsePath "/opt/tool/bin/app")
      (.ok (asciiBytes "/usr/libexec/git-core"))
      [(Path.mk true ["opt", "tool", "libexec"],
        Entry.symlink (Path.mk true ["old", "gone"]))]
      (parsePath "/opt/tool/bin") (parsePath "/opt/tool")
      (parsePath "/usr/libexec") (asciiBytes "/usr/libexec/git-core")
      ("/usr/libexec/git-core".data) (by decide) rfl rfl rfl rfl rfl).2
      (Path.mk true ["old", "gone"]) rfl rfl⟩

/-- C5: if the entry already present at SymlinkPath is a real directory, the
file-style removal fails with the is-a-directory error, `ensure_git_symlinks`
returns exactly that error, and the filesystem is returned unchanged (no
recursive removal is attempted, the collision is not silently ignored). -/
theorem ensure_directory_collision_error (exe : Path)
    (git : Except GitAiError (List Nat)) (osFail : Bool) (fs : FS)
    (bin base target : Path) (bytes : List Nat) (chars : List Char)
    (hbin : exe.parent = some bin) (hbase : bin.parent = some base)
    (hgit : git = .ok bytes) (hdec : utf8Decode bytes = some chars)
    (hpar : (parsePath (rustTrim (String.mk chars))).parent = some target)
    (hdir : lookupFS fs (base.join "libexec") = some Entry.dir) :
    ensure_git_symlinks exe git osFail fs =
      (.error (.ioErr .isADirectory), fs) := by
  subst hgit
  simp [ensure_git_symlinks, hbin, hbase, hdec, hpar, symlink_metadata_ok,
    hdir, remove_file]

theorem ensure_directory_collision_error_witness :
    ensure_git_symlinks (parsePath "/opt/tool/bin/app")
      (.ok (asciiBytes "/usr/libexec/git-core")) false
      [(Path.mk true ["opt", "tool", "libexec"], Entry.dir)] =
      (.error (.ioErr .isADirectory),
        [(Path.mk true ["opt", "tool", "libexec"], Entry.dir)]) :=
  ensure_directory_collision_error (parsePath "/opt/tool/bin/app")
    (.ok (asciiBytes "/usr/libexec/git-core")) false
    [(Path.mk true ["opt", "tool", "libexec"], Entry.dir)]
    (parsePath "/opt/tool/bin") (parsePath "/opt/tool")
    (parsePath "/usr/libexec") (asciiBytes "/usr/libexec/git-core")
    ("/usr/libexec/git-core".data) rfl rfl rfl rfl rfl rfl

/-- C6: if ExecutablePath has no parent, the routine fails with the
descriptive binary-directory error (no panic, filesystem untouched);
analogously, if BinaryDirectory has no parent, it fails with the descriptive
base-directory error. -/
theorem ensure_missing_parent_errors (exe : Path)
    (git : Except GitAiError (List Nat)) (osFail : Bool) (fs : FS) :
    (exe.parent = none →
      ensure_git_symlinks exe git osFail fs =
        (.error (.generic "Cannot get binary directory"), fs)) ∧
    (∀ bin, exe.parent = some bin → bin.parent = none →
      ensure_git_symlinks exe git osFail fs =
        (.error (.generic "Cannot get base directory"), fs)) := by
  constructor
  · intro h
    simp [ensure_git_symlinks, h]
  · intro bin h1 h2
    simp [ensure_git_symlinks, h1, h2]

theorem ensure_missing_parent_errors_witness :
    ensure_git_symlinks (parsePath "/") (.ok []) false [] =
      (.error (.generic "Cannot get binary directory"), []) ∧
    ensure_git_symlinks (parsePath "/app") (.ok []) false [] =
      (.error (.generic "Cannot get base directory"), []) :=
  ⟨(ensure_missing_parent_errors (parsePath "/") (.ok []) false []).1 rfl,
   (ensure_missing_parent_errors (parsePath "/app") (.ok []) false []).2
     (parsePath "/") rfl rfl⟩

/-- C7: whenever the trimmed path reported by the external command has no
parent (e.g. a root path), the routine returns the libexec path-derivation
error and the filesystem is returned unchanged — nothing was removed from or
created at SymlinkPath, and no panic occurs (the embedding is total). -/
theorem ensure_target_no_parent_error (exe : Path)
    (git : Except GitAiError (List Nat)) (osFail : Bool) (fs : FS)
    (bin base : Path) (bytes : List Nat) (chars : List Char)
    (hbin : exe.parent = some bin) (hbase : bin.parent = some base)
    (hgit : git = .ok bytes) (hdec : utf8Decode bytes = some chars)
    (hpar : (parsePath (rustTrim (String.mk chars))).parent = none) :
    ensure_git_symlinks exe git osFail fs =
      (.error (.generic "Cannot get libexec directory from exec-path"), fs) := by
  subst hgit
  simp [ensure_git_symlinks, hbin, hbase, hdec, hpar]

theorem ensure_target_no_parent_error_witness :
    ensure_git_symlinks (parsePath "/opt/tool/bin/app")
      (.ok (asciiBytes "/")) false [] =
      (.error (.generic "Cannot get libexec directory from exec-path"), []) :=
  ensure_target_no_parent_error (parsePath "/opt/tool/bin/app")
    (.ok (asciiBytes "/")) false [] (parsePath "/opt/tool/bin")
    (parsePath "/opt/tool") (asciiBytes "/") ("/".data) rfl rfl rfl rfl rfl

/-- C8: ExternalExecPath is the external command's stdout trimmed of
surrounding whitespace, and undecodable output is an encoding error. First
conjunct: if the stdout bytes are not valid UTF-8, the routine fails with the
encoding error, filesystem unchanged. Second conjunct: the routine's entire
behaviour depends on the stdout bytes only through the whitespace-trimmed
decoded string, so outputs with equal trimmed text are interchangeable. -/
theorem ensure_stdout_decoding (exe : Path) (osFail : Bool) (fs : FS) :
    (∀ (git : Except GitAiError (List Nat)) (bin base : Path)
      (bytes : List Nat),
      exe.parent = some bin → bin.parent = some base →
      git = .ok bytes → utf8Decode bytes = none →
      ensure_git_symlinks exe git osFail fs = (.error .utf8, fs)) ∧
    (∀ (b1 b2 : List Nat) (c1 c2 : List Char),
      utf8Decode b1 = some c1 → utf8Decode b2 = some c2 →
      rustTrim (String.mk c1) = rustTrim (String.mk c2) →
      ensure_git_symlinks exe (.ok b1) osFail fs =
        ensure_git_symlinks exe (.ok b2) osFail fs) := by
  constructor
  · intro git bin base bytes hbin hbase hgit hdec
    subst hgit
    simp [ensure_git_symlinks, hbin, hbase, hdec]
  · intro b1 b2 c1 c2 hd1 hd2 htrim
    unfold ensure_git_symlinks
    cases hp : exe.parent with
    | none => rfl
    | some bin =>
      cases hb : bin.parent with
      | none => simp [hb]
      | some base => simp [hb, hd1, hd2, htrim]

theorem ensure_stdout_decoding_witness :
    ensure_git_symlinks (parsePath "/opt/tool/bin/app") (.ok [0xFF]) false [] =
      (.error .utf8, []) ∧
    ensure_git_symlinks (parsePath "/opt/tool/bin/app")
      (.ok (asciiBytes " /usr/libexec/git-core\n")) false [] =
      ensure_git_symlinks (parsePath "/opt/tool/bin/app")
        (.ok (asciiBytes "/usr/libexec/git-core")) false [] :=
  ⟨(ensure_stdout_decoding (parsePath "/opt/tool/bin/app") false []).1
      (.ok [0xFF]) (parsePath "/opt/tool/bin") (parsePath "/opt/tool")
      [0xFF] rfl rfl rfl rfl,
   (ensure_stdout_decoding (parsePath "/opt/tool/bin/app") false []).2
      (asciiBytes " /usr/libexec/git-core\n")
      (asciiBytes "/usr/libexec/git-core")
      (" /usr/libexec/git-core\n".data) ("/usr/libexec/git-core".data)
      rfl rfl rfl⟩

/-- C9: if the symlink-creation call fails (here: rejected by the OS) after
the removal of the pre-existing entry at SymlinkPath succeeded, the routine
returns the creation error with the post-removal filesystem: the removed
entry is not restored, no retry happens, and no entry remains at
SymlinkPath. -/
theorem ensure_no_cleanup_after_create_failure (exe : Path)
    (git : Except GitAiError (List Nat)) (fs : FS)
    (bin base target : Path) (bytes : List Nat) (chars : List Char)
    (e : Entry) (hnd : wfFS fs)
    (hbin : exe.parent = some bin) (hbase : bin.parent = some base)
    (hgit : git = .ok bytes) (hdec : utf8Decode bytes = some chars)
    (hpar : (parsePath (rustTrim (String.mk chars))).parent = some target)
    (hent : lookupFS fs (base.join "libexec") = some e)
    (hne : e ≠ Entry.dir) :
    ensure_git_symlinks exe git true fs =
      (.error (.ioErr .permissionDenied), eraseFS fs (base.join "libexec")) ∧
    lookupFS (eraseFS fs (base.join "libexec")) (base.join "libexec") =
      none := by
  subst hgit
  have hrm : remove_file fs (base.join "libexec") =
      .ok (eraseFS fs (base.join "libexec")) := by
    cases e with
    | dir => exact absurd rfl hne
    | file => simp [remove_file, hent]
    | symlink t => simp [remove_file, hent]
  refine ⟨?_, lookupFS_eraseFS_self _ hnd⟩
  simp [ensure_git_symlinks, hbin, hbase, hdec, hpar, symlink_metadata_ok,
    hent, hrm, create_symlink]

theorem ensure_no_cleanup_after_create_failure_witness :
    ensure_git_symlinks (parsePath "/opt/tool/bin/app")
      (.ok (asciiBytes "/usr/libexec/git-core")) true
      [(Path.mk true ["opt", "tool", "libexec"], Entry.file)] =
      (.error (.ioErr .permissionDenied), []) ∧
    lookupFS (eraseFS [(Path.mk true ["opt", "tool", "libexec"], Entry.file)]
      (Path.mk true ["opt", "tool", "libexec"]))
      (Path.mk true ["opt", "tool", "libexec"]) = none :=
  ensure_no_cleanup_after_create_failure (parsePath "/opt/tool/bin/app")
    (.ok (asciiBytes "/usr/libexec/git-core"))
    [(Path.mk true ["opt", "tool", "libexec"], Entry.file)]
    (parsePath "/opt/tool/bin") (parsePath "/opt/tool")
    (parsePath "/usr/libexec") (asciiBytes "/usr/libexec/git-core")
    ("/usr/libexec/git-core".data) Entry.file (by decide)
    rfl rfl rfl rfl rfl rfl (by decide)

/-- C10: if the external command succeeds but its stdout is empty or only
whitespace, the trimmed string is empty, the empty path has no parent, and
the routine fails with the libexec path-derivation error instead of creating
a link (filesystem unchanged). -/
theorem ensure_empty_stdout_error (exe : Path)
    (git : Except GitAiError (List Nat)) (osFail : Bool) (fs : FS)
    (bin base : Path) (bytes : List Nat) (chars : List Char)
    (hbin : exe.parent = some bin) (hbase : bin.parent = some base)
    (hgit : git = .ok bytes) (hdec : utf8Decode bytes = some chars)
    (htrim : rustTrim (String.mk chars) = "") :
    ensure_git_symlinks exe git osFail fs =
      (.error (.generic "Cannot get libexec directory from exec-path"), fs) := by
  subst hgit
  have hp : (parsePath (rustTrim (String.mk chars))).parent = none := by
    rw [htrim]
    rfl
  simp [ensure_git_symlinks, hbin, hbase, hdec, hp]

theorem ensure_empty_stdout_error_witness :
    ensure_git_symlinks (parsePath "/opt/tool/bin/app")
      (.ok (asciiBytes "  \n")) false [] =
      (.error (.generic "Cannot get libexec directory from exec-path"), []) ∧
    ensure_git_symlinks (parsePath "/opt/tool/bin/app") (.ok []) false [] =
      (.error (.generic "Cannot get libexec directory from exec-path"), []) :=
  ⟨ensure_empty_stdout_error (parsePath "/opt/tool/bin/app")
      (.ok (asciiBytes "  \n")) false [] (parsePath "/opt/tool/bin")
      (parsePath "/opt/tool") (asciiBytes "  \n") ("  \n".data)
      rfl rfl rfl rfl rfl,
   ensure_empty_stdout_error (parsePath "/opt/tool/bin/app")
      (.ok []) false [] (parsePath "/opt/tool/bin")
      (parsePath "/opt/tool") [] [] rfl rfl rfl rfl rfl⟩

end GitAi
